import Mathlib

/-!
Shallow embedding of `src/download_raw_data.py` (repository skyrimer/lang-ai).

The program is a single downloader function plus an entry point.  Effects are
made explicit: the network is an oracle `Except String Response` (the outcome
of `requests.get`: either a raised exception message or a response), directory
creation and the streaming loop may be interrupted by injected faults, and the
local filesystem at the destination path is a value `Option (List Nat)`
(`none` = no file).  A run is summarised by a `RunResult`: the printed lines,
the HTTP requests issued, the final file contents at the destination path, the
ordered trace of `f.write` calls, the final progress-bar counter `n`, and
whether the destination file handle was opened and closed.
-/

namespace LangAi

/-- An HTTP request as issued by `requests.get(share_url, auth=("password", password), stream=True)`. -/
structure Request where
  method : String
  url : String
  authUser : String
  authPass : String
  stream : Bool
deriving DecidableEq, Repr

/-- An HTTP response: status code, the `content-length` header (absent or a raw
string), and the body bytes (each a `Nat`, standing for one byte). -/
structure Response where
  status : Nat
  contentLength : Option String
  body : List Nat
deriving DecidableEq, Repr

/-- Observable outcome of one call of `download_surfdrive_folder`. -/
structure RunResult where
  printed : List String
  requests : List Request
  file : Option (List Nat)
  writes : List (List Nat)
  progress : Nat
  opened : Bool
  closed : Bool
deriving DecidableEq, Repr

/-- `print(f"Target URL: {share_url}")` -/
def msg_target (u : String) : String := "Target URL: " ++ u

/-- `print(f"Downloading to '{output_path}'...")` -/
def msg_downloading (p : String) : String :=
  "Downloading to \x27" ++ p ++ "\x27..."

/-- `print(f"Success! Saved to '{output_path}'")` -/
def msg_success (p : String) : String := "Success! Saved to \x27" ++ p ++ "\x27"

/-- `print("ERROR, something went wrong")` -/
def msg_integrity : String := "ERROR, something went wrong"

/-- `print("Error: Authentication failed. Please check the password.")` -/
def msg_auth : String := "Error: Authentication failed. Please check the password."

/-- `print(f"Error: Failed to download. Status code: {response.status_code}")` -/
def msg_status (code : Nat) : String :=
  "Error: Failed to download. Status code: " ++ toString code

/-- `print(f"An unexpected error occurred: {e}")` -/
def msg_unexpected (e : String) : String := "An unexpected error occurred: " ++ e

/-- The message of the `ValueError` raised by Python's `int(s)` on a bad literal. -/
def msg_invalid_literal (s : String) : String :=
  "invalid literal for int() with base 10: \x27" ++ s ++ "\x27"

/-- Value of a nonempty all-digit character list, `none` otherwise. -/
def digitsVal? (l : List Char) : Option Nat :=
  if l ≠ [] ∧ l.all Char.isDigit then
    some (l.foldl (fun a c => a * 10 + (c.toNat - 48)) 0)
  else none

/-- Strip leading and trailing whitespace from a character list. -/
def pyStrip (l : List Char) : List Char :=
  ((l.dropWhile Char.isWhitespace).reverse.dropWhile Char.isWhitespace).reverse

/-- Python's `int(s)` on a string, restricted to ASCII decimal literals:
surrounding whitespace is stripped, an optional sign is allowed, and the rest
must be nonempty decimal digits; otherwise `none` (a raised `ValueError`). -/
def pyInt? (s : String) : Option Int :=
  match pyStrip s.toList with
  | [] => none
  | c :: rest =>
    if c = '-' then (digitsVal? rest).map (fun n => -(n : Int))
    else if c = '+' then (digitsVal? rest).map (fun n => (n : Int))
    else (digitsVal? (c :: rest)).map (fun n => (n : Int))

/-- `int(response.headers.get("content-length", 0))`: an absent header gives
`0`; a present header is parsed with `int`, whose failure is a raised
`ValueError` (modelled as `Except.error` with the `ValueError` message). -/
def contentLengthInt (h : Option String) : Except String Int :=
  match h with
  | none => Except.ok 0
  | some s =>
    match pyInt? s with
    | some k => Except.ok k
    | none => Except.error (msg_invalid_literal s)

/-- Recursion core of `iter_content`, structurally recursive on a fuel
argument so that it reduces definitionally; each step consumes at least one
element, so fuel `l.length` is always enough. -/
def iter_content_go (chunk_size : Nat) : Nat → List α → List (List α)
  | _, [] => []
  | 0, l => [l]
  | fuel + 1, x :: xs =>
      (x :: xs.take (chunk_size - 1)) ::
        iter_content_go chunk_size fuel (xs.drop (chunk_size - 1))

/-- `response.iter_content(chunk_size=block_size)`: the body split into
successive chunks of `chunk_size` bytes, the last chunk possibly shorter
(the usual take/drop splitter, for any `chunk_size ≥ 1`). -/
def iter_content (chunk_size : Nat) (l : List α) : List (List α) :=
  iter_content_go chunk_size l.length l

/-- The body of the `for chunk in ...` loop: for each chunk, in order,
`progress_bar.update(len(chunk))` then `f.write(chunk)`.  Returns the final
progress counter and the ordered trace of writes. -/
def run_stream (chunks : List (List Nat)) : Nat × List (List Nat) :=
  chunks.foldl (fun acc chunk => (acc.1 + chunk.length, acc.2 ++ [chunk])) (0, [])

/-- The one request `requests.get(share_url, auth=("password", password), stream=True)` builds. -/
def the_request (share_url password : String) : Request :=
  ⟨"GET", share_url, "password", password, true⟩

/-- The `try:` block of `download_surfdrive_folder` (lines 36-63).
`Except.error (e, st)` models an exception with message `e` escaping the block
with the observable state `st` at that moment; `Except.ok` is normal
completion.  `net` is the outcome of `requests.get`; `mkdirFault` injects an
OS error into `output_path.parent.mkdir(...)`; `streamFault = some (k, e)`
makes `iter_content` raise `e` after yielding its first `k` chunks (no fault
if `k` exceeds the number of chunks). -/
def download_try (share_url password output_path : String) (block_size : Nat)
    (net : Except String Response) (preFile : Option (List Nat))
    (mkdirFault : Option String) (streamFault : Option (Nat × String)) :
    Except (String × RunResult) RunResult :=
  let printed0 := [msg_target share_url, msg_downloading output_path]
  let req : Request := the_request share_url password
  let base : RunResult := ⟨printed0, [req], preFile, [], 0, false, false⟩
  match net with
  | Except.error e => Except.error (e, base)
  | Except.ok response =>
    if response.status = 200 then
      match mkdirFault with
      | some e => Except.error (e, base)
      | none =>
        match contentLengthInt response.contentLength with
        | Except.error e => Except.error (e, base)
        | Except.ok total_size_in_bytes =>
          let chunks := iter_content block_size response.body
          let full := run_stream chunks
          let endMsg :=
            if total_size_in_bytes ≠ 0 ∧ (full.1 : Int) ≠ total_size_in_bytes then
              msg_integrity
            else
              msg_success output_path
          let done : RunResult :=
            ⟨printed0 ++ [endMsg], [req], some full.2.flatten, full.2, full.1, true, true⟩
          match streamFault with
          | some (k, e) =>
            if k ≤ chunks.length then
              let part := run_stream (chunks.take k)
              Except.error (e, ⟨printed0, [req], some part.2.flatten, part.2, part.1, true, true⟩)
            else Except.ok done
          | none => Except.ok done
    else if response.status = 401 then
      Except.ok { base with printed := printed0 ++ [msg_auth] }
    else
      Except.ok { base with printed := printed0 ++ [msg_status response.status] }

/-- `download_surfdrive_folder`: the `try:` block wrapped in
`except Exception as e: print(f"An unexpected error occurred: {e}")`. -/
def download_surfdrive_folder (share_url password output_path : String) (block_size : Nat)
    (net : Except String Response) (preFile : Option (List Nat))
    (mkdirFault : Option String) (streamFault : Option (Nat × String)) : RunResult :=
  match download_try share_url password output_path block_size net preFile mkdirFault streamFault with
  | Except.ok r => r
  | Except.error (e, st) => { st with printed := st.printed ++ [msg_unexpected e] }

/-- The `ValueError` message of the `__main__` guard (with the spaces that the
source's backslash line continuation embeds in the literal). -/
def env_error_message : String :=
  "Environment variables SURFDRIVE_LINK and SURFDRIVE_PASSWORD are required.                Check that they are set in your .env file."

/-- Python truthiness of `os.getenv(...)`: `None` and `""` are falsy. -/
def truthy : Option String → Bool
  | none => false
  | some s => !s.isEmpty

/-- Requests issued by a whole program run (`[]` when startup raised). -/
def requestsOfMain : Except String RunResult → List Request
  | Except.error _ => []
  | Except.ok r => r.requests

/-- The `__main__` block: read `SURFDRIVE_LINK` and `SURFDRIVE_PASSWORD`,
raise `ValueError` if either is falsy (checked in that order), otherwise call
the downloader on `<project_root>/raw_data/reddit_pol.csv`. -/
def main_run (link pw : Option String) (project_root : String)
    (net : Except String Response) (preFile : Option (List Nat))
    (mkdirFault : Option String) (streamFault : Option (Nat × String)) :
    Except String RunResult :=
  if truthy link = false then Except.error env_error_message
  else if truthy pw = false then Except.error env_error_message
  else Except.ok (download_surfdrive_folder (link.getD "") (pw.getD "")
    (project_root ++ "/raw_data/reddit_pol.csv") 8192 net preFile mkdirFault streamFault)

/-- Whether control reaches `open(output_path, "wb")`: the response arrived,
its status is 200, `mkdir` did not raise, and the header parsed. -/
def reaches_open (net : Except String Response) (mkdirFault : Option String) : Bool :=
  match net with
  | Except.error _ => false
  | Except.ok r =>
    r.status == 200 && mkdirFault.isNone &&
      (match contentLengthInt r.contentLength with
       | Except.ok _ => true
       | Except.error _ => false)

/-- Recursion core of `chunkLens`, parallel to `iter_content_go`. -/
def chunkLens_go (chunk_size : Nat) : Nat → Nat → List Nat
  | _, 0 => []
  | 0, n + 1 => [n + 1]
  | fuel + 1, n + 1 =>
      (min (chunk_size - 1) n + 1) :: chunkLens_go chunk_size fuel (n - (chunk_size - 1))

/-- Chunk lengths of `iter_content chunk_size` on a list of length `n`. -/
def chunkLens (chunk_size n : Nat) : List Nat :=
  chunkLens_go chunk_size n n

theorem run_stream_fold (l : List (List Nat)) (n : Nat) (acc : List (List Nat)) :
    l.foldl (fun acc chunk => (acc.1 + chunk.length, acc.2 ++ [chunk])) (n, acc) =
      (n + (l.map List.length).sum, acc ++ l) := by
  induction l generalizing n acc with
  | nil => simp
  | cons c t ih =>
    simp only [List.foldl_cons, ih, List.map_cons, List.sum_cons]
    rw [Prod.mk.injEq]
    exact ⟨by omega, by simp⟩

theorem run_stream_eq (l : List (List Nat)) :
    run_stream l = ((l.map List.length).sum, l) := by
  simpa [run_stream] using run_stream_fold l 0 []

theorem iter_content_go_flatten (cs : Nat) (fuel : Nat) (l : List α) :
    (iter_content_go cs fuel l).flatten = l := by
  induction fuel generalizing l with
  | zero => cases l <;> simp [iter_content_go]
  | succ fuel ih =>
    cases l with
    | nil => simp [iter_content_go]
    | cons x xs => simp [iter_content_go, ih]

theorem iter_content_flatten (cs : Nat) (l : List α) :
    (iter_content cs l).flatten = l :=
  iter_content_go_flatten cs l.length l

theorem iter_content_go_map_length (cs : Nat) (fuel : Nat) (l : List α) :
    (iter_content_go cs fuel l).map List.length = chunkLens_go cs fuel l.length := by
  induction fuel generalizing l with
  | zero => cases l <;> simp [iter_content_go, chunkLens_go]
  | succ fuel ih =>
    cases l with
    | nil => simp [iter_content_go, chunkLens_go]
    | cons x xs => simp [iter_content_go, chunkLens_go, ih, Nat.min_comm]

theorem iter_content_map_length (cs : Nat) (l : List α) :
    (iter_content cs l).map List.length = chunkLens cs l.length :=
  iter_content_go_map_length cs l.length l

theorem iter_content_length_sum (cs : Nat) (l : List α) :
    ((iter_content cs l).map List.length).sum = l.length := by
  rw [← List.length_flatten, iter_content_flatten]

theorem run_net_error (u p o : String) (bs : Nat) (e : String)
    (preFile : Option (List Nat)) (mf : Option String) (sf : Option (Nat × String)) :
    download_surfdrive_folder u p o bs (Except.error e) preFile mf sf =
      ⟨[msg_target u, msg_downloading o, msg_unexpected e],
       [the_request u p], preFile, [], 0, false, false⟩ := by
  simp [download_surfdrive_folder, download_try]

theorem run_auth_fail (u p o : String) (bs : Nat) (r : Response)
    (preFile : Option (List Nat)) (mf : Option String) (sf : Option (Nat × String))
    (hst : r.status = 401) :
    download_surfdrive_folder u p o bs (Except.ok r) preFile mf sf =
      ⟨[msg_target u, msg_downloading o, msg_auth],
       [the_request u p], preFile, [], 0, false, false⟩ := by
  simp [download_surfdrive_folder, download_try, hst]

theorem run_other_status (u p o : String) (bs : Nat) (r : Response)
    (preFile : Option (List Nat)) (mf : Option String) (sf : Option (Nat × String))
    (hst200 : r.status ≠ 200) (hst401 : r.status ≠ 401) :
    download_surfdrive_folder u p o bs (Except.ok r) preFile mf sf =
      ⟨[msg_target u, msg_downloading o, msg_status r.status],
       [the_request u p], preFile, [], 0, false, false⟩ := by
  simp [download_surfdrive_folder, download_try, hst200, hst401]

theorem run_mkdir_fault (u p o : String) (bs : Nat) (r : Response)
    (preFile : Option (List Nat)) (e : String) (sf : Option (Nat × String))
    (hst : r.status = 200) :
    download_surfdrive_folder u p o bs (Except.ok r) preFile (some e) sf =
      ⟨[msg_target u, msg_downloading o, msg_unexpected e],
       [the_request u p], preFile, [], 0, false, false⟩ := by
  simp [download_surfdrive_folder, download_try, hst]

theorem run_header_fault (u p o : String) (bs : Nat) (r : Response)
    (preFile : Option (List Nat)) (sf : Option (Nat × String)) (e : String)
    (hst : r.status = 200) (hcl : contentLengthInt r.contentLength = Except.error e) :
    download_surfdrive_folder u p o bs (Except.ok r) preFile none sf =
      ⟨[msg_target u, msg_downloading o, msg_unexpected e],
       [the_request u p], preFile, [], 0, false, false⟩ := by
  simp [download_surfdrive_folder, download_try, hst, hcl]

theorem run_complete (u p o : String) (bs : Nat) (r : Response)
    (preFile : Option (List Nat)) (t : Int)
    (hst : r.status = 200) (hcl : contentLengthInt r.contentLength = Except.ok t) :
    download_surfdrive_folder u p o bs (Except.ok r) preFile none none =
      ⟨[msg_target u, msg_downloading o,
        if t ≠ 0 ∧ (r.body.length : Int) ≠ t then msg_integrity else msg_success o],
       [the_request u p], some r.body, iter_content bs r.body, r.body.length, true, true⟩ := by
  simp [download_surfdrive_folder, download_try, hst, hcl, run_stream_eq,
    iter_content_flatten, iter_content_length_sum]

theorem run_stream_fault (u p o : String) (bs : Nat) (r : Response)
    (preFile : Option (List Nat)) (t : Int) (k : Nat) (e : String)
    (hst : r.status = 200) (hcl : contentLengthInt r.contentLength = Except.ok t)
    (hk : k ≤ (iter_content bs r.body).length) :
    download_surfdrive_folder u p o bs (Except.ok r) preFile none (some (k, e)) =
      ⟨[msg_target u, msg_downloading o, msg_unexpected e], [the_request u p],
       some ((iter_content bs r.body).take k).flatten, (iter_content bs r.body).take k,
       (((iter_content bs r.body).take k).map List.length).sum, true, true⟩ := by
  simp [download_surfdrive_folder, download_try, hst, hcl, run_stream_eq, hk]

theorem run_stream_fault_over (u p o : String) (bs : Nat) (r : Response)
    (preFile : Option (List Nat)) (t : Int) (k : Nat) (e : String)
    (hst : r.status = 200) (hcl : contentLengthInt r.contentLength = Except.ok t)
    (hk : ¬ k ≤ (iter_content bs r.body).length) :
    download_surfdrive_folder u p o bs (Except.ok r) preFile none (some (k, e)) =
      ⟨[msg_target u, msg_downloading o,
        if t ≠ 0 ∧ (r.body.length : Int) ≠ t then msg_integrity else msg_success o],
       [the_request u p], some r.body, iter_content bs r.body, r.body.length, true, true⟩ := by
  simp [download_surfdrive_folder, download_try, hst, hcl, run_stream_eq,
    iter_content_flatten, iter_content_length_sum, hk]

theorem msg_integrity_ne_target (u : String) : msg_integrity ≠ msg_target u := by
  intro h
  have h2 := congrArg (fun s => s.data.head?) h
  simp [msg_integrity, msg_target, String.data_append] at h2

theorem msg_integrity_ne_downloading (p : String) : msg_integrity ≠ msg_downloading p := by
  intro h
  have h2 := congrArg (fun s => s.data.head?) h
  simp [msg_integrity, msg_downloading, String.data_append] at h2

theorem msg_integrity_ne_success (p : String) : msg_integrity ≠ msg_success p := by
  intro h
  have h2 := congrArg (fun s => s.data.head?) h
  simp [msg_integrity, msg_success, String.data_append] at h2

theorem msg_integrity_ne_unexpected (e : String) : msg_integrity ≠ msg_unexpected e := by
  intro h
  have h2 := congrArg (fun s => s.data.head?) h
  simp [msg_integrity, msg_unexpected, String.data_append] at h2

theorem msg_success_ne_target (p u : String) : msg_success p ≠ msg_target u := by
  intro h
  have h2 := congrArg (fun s => s.data.head?) h
  simp [msg_success, msg_target, String.data_append] at h2

theorem msg_success_ne_downloading (p q : String) : msg_success p ≠ msg_downloading q := by
  intro h
  have h2 := congrArg (fun s => s.data.head?) h
  simp [msg_success, msg_downloading, String.data_append] at h2

theorem msg_success_ne_unexpected (p e : String) : msg_success p ≠ msg_unexpected e := by
  intro h
  have h2 := congrArg (fun s => s.data.head?) h
  simp [msg_success, msg_unexpected, String.data_append] at h2

/-- C1: for every chunk size ≥ 1 and every HTTP 200 response whose body is `N`
bytes, when the streaming loop of `download_surfdrive_folder` completes, the
running byte counter of the progress bar equals `N`, the destination file
contains exactly the `N` body bytes, and the chunks were written in order
(the write trace is `iter_content` of the body, whose concatenation is the
body). -/
theorem C1_stream_counter_and_file (u p o : String) (bs : Nat) (r : Response)
    (preFile : Option (List Nat)) (t : Int)
    (hbs : 1 ≤ bs) (hst : r.status = 200)
    (hcl : contentLengthInt r.contentLength = Except.ok t) :
    let res := download_surfdrive_folder u p o bs (Except.ok r) preFile none none
    res.progress = r.body.length ∧ res.file = some r.body ∧
      res.writes = iter_content bs r.body ∧ res.writes.flatten = r.body := by
  simp only [run_complete u p o bs r preFile t hst hcl]
  exact ⟨trivial, trivial, trivial, iter_content_flatten bs r.body⟩

/-- Witness for C1: a 200 response with a 17-byte body, chunk size 4. -/
theorem C1_stream_counter_and_file_witness :
    let res := download_surfdrive_folder "u" "pw" "out" 4
      (Except.ok ⟨200, some "17", List.range 17⟩) none none none
    res.progress = (List.range 17).length ∧ res.file = some (List.range 17) ∧
      res.writes = iter_content 4 (List.range 17) ∧
      res.writes.flatten = List.range 17 :=
  C1_stream_counter_and_file "u" "pw" "out" 4 ⟨200, some "17", List.range 17⟩
    none 17 (by decide) rfl rfl

/-- C2: after the streaming loop ends on a 200 response: a nonzero declared
total equal to the byte counter reports success; a nonzero total different
from the counter reports the integrity warning without raising, with the file
holding exactly the streamed bytes; a declared total of 0 — in particular an
omitted Content-Length header — never produces the integrity warning. -/
theorem C2_integrity_outcome (u p o : String) (bs : Nat) (r : Response)
    (preFile : Option (List Nat)) (t : Int)
    (hst : r.status = 200) (hcl : contentLengthInt r.contentLength = Except.ok t) :
    let res := download_surfdrive_folder u p o bs (Except.ok r) preFile none none
    ((t ≠ 0 ∧ (r.body.length : Int) = t) →
      res.printed.getLast? = some (msg_success o)) ∧
    ((t ≠ 0 ∧ (r.body.length : Int) ≠ t) →
      res.printed.getLast? = some msg_integrity ∧ res.file = some r.body) ∧
    ((t = 0 ∨ r.contentLength = none) → msg_integrity ∉ res.printed) ∧
    (download_try u p o bs (Except.ok r) preFile none none).isOk = true := by
  simp only [run_complete u p o bs r preFile t hst hcl]
  refine ⟨?_, ?_, ?_, ?_⟩
  · rintro ⟨ht, heq⟩
    simp [ht, heq]
  · rintro ⟨ht, hne⟩
    simp [ht, hne]
  · intro h0
    have ht : t = 0 := by
      rcases h0 with h0 | h0
      · exact h0
      · rw [h0] at hcl
        simp [contentLengthInt] at hcl
        omega
    simp [ht, msg_integrity_ne_target, msg_integrity_ne_downloading,
      msg_integrity_ne_success]
  · simp [download_try, hst, hcl, Except.isOk, Except.toBool]

/-- Witness for C2: Content-Length 3 with a 3-byte body (success branch). -/
theorem C2_integrity_outcome_witness :
    let res := download_surfdrive_folder "u" "pw" "out" 2
      (Except.ok ⟨200, some "3", [7, 8, 9]⟩) none none none
    ((3 : Int) ≠ 0 ∧ (([7, 8, 9] : List Nat).length : Int) = 3 →
      res.printed.getLast? = some (msg_success "out")) ∧
    ((3 : Int) ≠ 0 ∧ (([7, 8, 9] : List Nat).length : Int) ≠ 3 →
      res.printed.getLast? = some msg_integrity ∧ res.file = some [7, 8, 9]) ∧
    (((3 : Int) = 0 ∨ (some "3" : Option String) = none) →
      msg_integrity ∉ res.printed) ∧
    (download_try "u" "pw" "out" 2
      (Except.ok ⟨200, some "3", [7, 8, 9]⟩) none none none).isOk = true :=
  C2_integrity_outcome "u" "pw" "out" 2 ⟨200, some "3", [7, 8, 9]⟩ none 3 rfl rfl

/-- C3: `download_surfdrive_folder` always returns normally.  Whatever the try
block does, the function yields a plain `RunResult`: either the try block's
normal result, or — when an exception was raised during the request, the
directory creation, the header parse, or the streaming loop — the state at the
raise with the exception's message reported as the final printed line. -/
theorem C3_no_exception_escapes (u p o : String) (bs : Nat)
    (net : Except String Response) (preFile : Option (List Nat))
    (mf : Option String) (sf : Option (Nat × String)) :
    ((∃ rr, download_try u p o bs net preFile mf sf = Except.ok rr ∧
        download_surfdrive_folder u p o bs net preFile mf sf = rr) ∨
      (∃ e st, download_try u p o bs net preFile mf sf = Except.error (e, st) ∧
        download_surfdrive_folder u p o bs net preFile mf sf =
          { st with printed := st.printed ++ [msg_unexpected e] })) ∧
    (∀ e, net = Except.error e →
      (download_surfdrive_folder u p o bs net preFile mf sf).printed.getLast?
        = some (msg_unexpected e)) ∧
    (∀ r e, net = Except.ok r → r.status = 200 → mf = some e →
      (download_surfdrive_folder u p o bs net preFile mf sf).printed.getLast?
        = some (msg_unexpected e)) ∧
    (∀ r e, net = Except.ok r → r.status = 200 → mf = none →
      contentLengthInt r.contentLength = Except.error e →
      (download_surfdrive_folder u p o bs net preFile mf sf).printed.getLast?
        = some (msg_unexpected e)) ∧
    (∀ r t k e, net = Except.ok r → r.status = 200 → mf = none →
      contentLengthInt r.contentLength = Except.ok t → sf = some (k, e) →
      k ≤ (iter_content bs r.body).length →
      (download_surfdrive_folder u p o bs net preFile mf sf).printed.getLast?
        = some (msg_unexpected e)) := by
  refine ⟨?_, ?_, ?_, ?_, ?_⟩
  · rcases h : download_try u p o bs net preFile mf sf with ⟨e, st⟩ | rr
    · exact Or.inr ⟨e, st, rfl, by simp [download_surfdrive_folder, h]⟩
    · exact Or.inl ⟨rr, rfl, by simp [download_surfdrive_folder, h]⟩
  · rintro e rfl
    simp [run_net_error]
  · rintro r e rfl hst rfl
    simp [run_mkdir_fault u p o bs r preFile e sf hst]
  · rintro r e rfl hst rfl hcl
    simp [run_header_fault u p o bs r preFile sf e hst hcl]
  · rintro r t k e rfl hst rfl hcl rfl hk
    simp [run_stream_fault u p o bs r preFile t k e hst hcl hk]

/-- Witness for C3: the four fault kinds at concrete inputs. -/
theorem C3_no_exception_escapes_witness :
    (download_surfdrive_folder "u" "pw" "out" 4
        (Except.error "connection reset") none none none).printed.getLast?
      = some (msg_unexpected "connection reset") ∧
    (download_surfdrive_folder "u" "pw" "out" 4
        (Except.ok ⟨200, none, [1]⟩) none (some "permission denied") none).printed.getLast?
      = some (msg_unexpected "permission denied") ∧
    (download_surfdrive_folder "u" "pw" "out" 4
        (Except.ok ⟨200, some "abc", [1]⟩) none none none).printed.getLast?
      = some (msg_unexpected (msg_invalid_literal "abc")) ∧
    (download_surfdrive_folder "u" "pw" "out" 4
        (Except.ok ⟨200, some "3", [1, 2, 3]⟩) none none
        (some (1, "read timed out"))).printed.getLast?
      = some (msg_unexpected "read timed out") := by
  refine ⟨?_, ?_, ?_, ?_⟩
  · exact (C3_no_exception_escapes "u" "pw" "out" 4
      (Except.error "connection reset") none none none).2.1 "connection reset" rfl
  · exact (C3_no_exception_escapes "u" "pw" "out" 4
      (Except.ok ⟨200, none, [1]⟩) none (some "permission denied") none).2.2.1
      ⟨200, none, [1]⟩ "permission denied" rfl rfl rfl
  · exact (C3_no_exception_escapes "u" "pw" "out" 4
      (Except.ok ⟨200, some "abc", [1]⟩) none none none).2.2.2.1
      ⟨200, some "abc", [1]⟩ (msg_invalid_literal "abc") rfl rfl rfl rfl
  · exact (C3_no_exception_escapes "u" "pw" "out" 4
      (Except.ok ⟨200, some "3", [1, 2, 3]⟩) none none
      (some (1, "read timed out"))).2.2.2.2
      ⟨200, some "3", [1, 2, 3]⟩ 3 1 "read timed out" rfl rfl rfl rfl rfl (by decide)

/-- C4: on any response whose status is not 200, no file is written (a
pre-existing file at the destination is untouched), the file is never opened,
nothing is raised; a 401 reports the authentication message, and any other
status reports the failure message that literally contains the status code. -/
theorem C4_non_200_no_write (u p o : String) (bs : Nat) (r : Response)
    (preFile : Option (List Nat)) (mf : Option String) (sf : Option (Nat × String))
    (hst : r.status ≠ 200) :
    let res := download_surfdrive_folder u p o bs (Except.ok r) preFile mf sf
    res.file = preFile ∧ res.writes = [] ∧ res.opened = false ∧
    (download_try u p o bs (Except.ok r) preFile mf sf).isOk = true ∧
    (r.status = 401 →
      res.printed = [msg_target u, msg_downloading o, msg_auth]) ∧
    (r.status ≠ 401 →
      res.printed = [msg_target u, msg_downloading o, msg_status r.status] ∧
      ∃ pre post, res.printed.getLast? = some (pre ++ toString r.status ++ post)) := by
  by_cases h401 : r.status = 401
  · simp only [run_auth_fail u p o bs r preFile mf sf h401]
    refine ⟨trivial, trivial, trivial, ?_, fun _ => trivial, fun hn => absurd h401 hn⟩
    simp [download_try, h401, Except.isOk, Except.toBool]
  · simp only [run_other_status u p o bs r preFile mf sf hst h401]
    refine ⟨trivial, trivial, trivial, ?_, fun h => absurd h h401, fun _ => ⟨trivial, ?_⟩⟩
    · simp [download_try, hst, h401, Except.isOk, Except.toBool]
    · refine ⟨"Error: Failed to download. Status code: ", "", ?_⟩
      simp [msg_status]

/-- Witness for C4: a 404 response with a pre-existing destination file. -/
theorem C4_non_200_no_write_witness :
    let res := download_surfdrive_folder "u" "pw" "out" 4
      (Except.ok ⟨404, some "3", [1, 2, 3]⟩) (some [9, 9]) none none
    res.file = some [9, 9] ∧ res.writes = [] ∧ res.opened = false ∧
    (download_try "u" "pw" "out" 4
      (Except.ok ⟨404, some "3", [1, 2, 3]⟩) (some [9, 9]) none none).isOk = true ∧
    ((404 : Nat) = 401 →
      res.printed = [msg_target "u", msg_downloading "out", msg_auth]) ∧
    ((404 : Nat) ≠ 401 →
      res.printed = [msg_target "u", msg_downloading "out", msg_status 404] ∧
      ∃ pre post, res.printed.getLast? = some (pre ++ toString (404 : Nat) ++ post)) :=
  C4_non_200_no_write "u" "pw" "out" 4 ⟨404, some "3", [1, 2, 3]⟩
    (some [9, 9]) none none (by decide)

/-- C5: if either required environment variable is absent or empty, the entry
point halts with the fatal `ValueError` whose message names both variable
names, and no request is ever issued; otherwise it invokes the downloader on
`<project_root>/raw_data/reddit_pol.csv`. -/
theorem C5_env_guard (link pw : Option String) (root : String)
    (net : Except String Response) (preFile : Option (List Nat))
    (mf : Option String) (sf : Option (Nat × String)) :
    ((truthy link = false ∨ truthy pw = false) →
      main_run link pw root net preFile mf sf = Except.error env_error_message ∧
      requestsOfMain (main_run link pw root net preFile mf sf) = [] ∧
      (∃ a b, env_error_message = a ++ "SURFDRIVE_LINK" ++ b) ∧
      (∃ a b, env_error_message = a ++ "SURFDRIVE_PASSWORD" ++ b)) ∧
    (truthy link = true → truthy pw = true →
      main_run link pw root net preFile mf sf =
        Except.ok (download_surfdrive_folder (link.getD "") (pw.getD "")
          (root ++ "/raw_data/reddit_pol.csv") 8192 net preFile mf sf)) := by
  constructor
  · intro h
    have hmain : main_run link pw root net preFile mf sf
        = Except.error env_error_message := by
      rcases h with h | h
      · simp [main_run, h]
      · rcases hl : truthy link with _ | _ <;> simp [main_run, h, hl]
    refine ⟨hmain, by simp [hmain, requestsOfMain], ?_, ?_⟩
    · exact ⟨"Environment variables ",
        " and SURFDRIVE_PASSWORD are required.                Check that they are set in your .env file.",
        by decide⟩
    · exact ⟨"Environment variables SURFDRIVE_LINK and ",
        " are required.                Check that they are set in your .env file.",
        by decide⟩
  · intro hl hp
    simp [main_run, hl, hp]

/-- Witness for C5: a missing link halts with no request; both variables set
invokes the downloader. -/
theorem C5_env_guard_witness :
    (main_run none (some "pw") "/proj" (Except.error "x") none none none
        = Except.error env_error_message ∧
      requestsOfMain (main_run none (some "pw") "/proj"
        (Except.error "x") none none none) = [] ∧
      (∃ a b, env_error_message = a ++ "SURFDRIVE_LINK" ++ b) ∧
      (∃ a b, env_error_message = a ++ "SURFDRIVE_PASSWORD" ++ b)) ∧
    (main_run (some "http://u") (some "pw") "/proj"
        (Except.error "x") none none none =
      Except.ok (download_surfdrive_folder "http://u" "pw"
        "/proj/raw_data/reddit_pol.csv" 8192 (Except.error "x") none none none)) :=
  ⟨(C5_env_guard none (some "pw") "/proj" (Except.error "x") none none none).1
      (Or.inl rfl),
    (C5_env_guard (some "http://u") (some "pw") "/proj"
      (Except.error "x") none none none).2 rfl rfl⟩

/-- C6 counterexample: a 200 response whose Content-Length header is present
but not an integer (`"abc"`), with a nonempty body and no injected fault.  The
claim says the declared total defaults to 0 and the download proceeds; in the
code `int(...)` raises, the catch prints the generic message, and no byte of
the body reaches the destination file. -/
theorem C6_counterexample :
    let res := download_surfdrive_folder "u" "pw" "out" 4
      (Except.ok ⟨200, some "abc", [1, 2, 3]⟩) none none none
    res.file = none ∧ res.writes = [] ∧ res.opened = false ∧
    res.printed.getLast? = some (msg_unexpected (msg_invalid_literal "abc")) ∧
    res.file ≠ some [1, 2, 3] := by
  refine ⟨rfl, rfl, rfl, rfl, by decide⟩

/-- C6 amended: on a 200 response the Content-Length header is read as the
declared total; an absent header defaults the total to 0 and the download
proceeds (the whole body is streamed to the file); a present but non-integer
header instead raises inside the try block, so the generic unexpected-error
message is reported, the file is never opened, and nothing is written. -/
theorem C6_header_parsing (u p o : String) (bs : Nat) (r : Response)
    (preFile : Option (List Nat)) (hst : r.status = 200) :
    (r.contentLength = none →
      contentLengthInt r.contentLength = Except.ok 0 ∧
      (download_surfdrive_folder u p o bs (Except.ok r) preFile none none).file
        = some r.body ∧
      (download_surfdrive_folder u p o bs (Except.ok r) preFile none none).progress
        = r.body.length) ∧
    (∀ s, r.contentLength = some s → pyInt? s = none →
      let res := download_surfdrive_folder u p o bs (Except.ok r) preFile none none
      res.printed = [msg_target u, msg_downloading o,
        msg_unexpected (msg_invalid_literal s)] ∧
      res.file = preFile ∧ res.writes = [] ∧ res.opened = false) := by
  constructor
  · intro hnone
    have hcl : contentLengthInt r.contentLength = Except.ok 0 := by
      rw [hnone]; rfl
    exact ⟨hcl, by simp [run_complete u p o bs r preFile 0 hst hcl],
      by simp [run_complete u p o bs r preFile 0 hst hcl]⟩
  · intro s hs hbad
    have hcl : contentLengthInt r.contentLength
        = Except.error (msg_invalid_literal s) := by
      rw [hs]
      simp [contentLengthInt, hbad]
    simp [run_header_fault u p o bs r preFile none (msg_invalid_literal s) hst hcl]

/-- Witness for C6 (amended): an absent header on a 2-byte body, and an
unparsable header `"abc"`. -/
theorem C6_header_parsing_witness :
    ((none : Option String) = none →
      contentLengthInt none = Except.ok 0 ∧
      (download_surfdrive_folder "u" "pw" "out" 4
        (Except.ok ⟨200, none, [5, 6]⟩) none none none).file = some [5, 6] ∧
      (download_surfdrive_folder "u" "pw" "out" 4
        (Except.ok ⟨200, none, [5, 6]⟩) none none none).progress
        = ([5, 6] : List Nat).length) ∧
    (∀ s, (some "abc" : Option String) = some s → pyInt? s = none →
      let res := download_surfdrive_folder "u" "pw" "out" 4
        (Except.ok ⟨200, some "abc", [5, 6]⟩) none none none
      res.printed = [msg_target "u", msg_downloading "out",
        msg_unexpected (msg_invalid_literal s)] ∧
      res.file = none ∧ res.writes = [] ∧ res.opened = false) :=
  ⟨fun _ => C6_header_parsing "u" "pw" "out" 4 ⟨200, none, [5, 6]⟩ none rfl |>.1 rfl,
    fun s hs hbad =>
      C6_header_parsing "u" "pw" "out" 4 ⟨200, some "abc", [5, 6]⟩ none rfl |>.2
        s hs hbad⟩

/-- C7: every invocation of `download_surfdrive_folder` issues exactly one
HTTP GET to the given URL, authenticated with HTTP Basic Authentication whose
username is the literal `"password"` and whose credential is the supplied
password — on every control path, including all failure paths. -/
theorem C7_single_authenticated_get (u p o : String) (bs : Nat)
    (net : Except String Response) (preFile : Option (List Nat))
    (mf : Option String) (sf : Option (Nat × String)) :
    (download_surfdrive_folder u p o bs net preFile mf sf).requests
        = [the_request u p] ∧
    (the_request u p).method = "GET" ∧ (the_request u p).url = u ∧
    (the_request u p).authUser = "password" ∧ (the_request u p).authPass = p ∧
    (the_request u p).stream = true := by
  refine ⟨?_, rfl, rfl, rfl, rfl, rfl⟩
  rcases net with e | r
  · simp [run_net_error]
  · by_cases h200 : r.status = 200
    · cases mf with
      | some e => simp [run_mkdir_fault u p o bs r preFile e sf h200]
      | none =>
        cases hcl : contentLengthInt r.contentLength with
        | error e => simp [run_header_fault u p o bs r preFile sf e h200 hcl]
        | ok t =>
          cases sf with
          | none => simp [run_complete u p o bs r preFile t h200 hcl]
          | some ke =>
            rcases ke with ⟨k, e⟩
            by_cases hk : k ≤ (iter_content bs r.body).length
            · simp [run_stream_fault u p o bs r preFile t k e h200 hcl hk]
            · simp [run_stream_fault_over u p o bs r preFile t k e h200 hcl hk]
    · by_cases h401 : r.status = 401
      · simp [run_auth_fail u p o bs r preFile mf sf h401]
      · simp [run_other_status u p o bs r preFile mf sf h200 h401]

/-- C8 counterexample: a 17-byte body with `Content-Length: 17` and chunk size
4 is written as chunks of sizes 4, 4, 4, 4, 1 — four chunks of 4 bytes and one
of 1 byte — not as the claimed three chunks of 4 bytes and one of 1 byte. -/
theorem C8_counterexample :
    let res := download_surfdrive_folder "u" "pw" "out" 4
      (Except.ok ⟨200, some "17", List.range 17⟩) none none none
    res.writes.map List.length = [4, 4, 4, 4, 1] ∧
    res.writes.map List.length ≠ [4, 4, 4, 1] := by
  exact ⟨by decide, by decide⟩

/-- C8 amended: when the URL serves a 17-byte body with `Content-Length: 17`
and the chunk size is 4, four chunks of 4 bytes and one chunk of 1 byte are
written in order, the final file holds the 17 body bytes, the counter reads
17, and the reported outcome is success. -/
theorem C8_17_byte_scenario (u p o : String) (r : Response)
    (hst : r.status = 200) (hcl17 : r.contentLength = some "17")
    (hlen : r.body.length = 17) :
    let res := download_surfdrive_folder u p o 4 (Except.ok r) none none none
    res.writes.map List.length = [4, 4, 4, 4, 1] ∧
    res.writes.flatten = r.body ∧ res.file = some r.body ∧ res.progress = 17 ∧
    res.printed.getLast? = some (msg_success o) := by
  have hcl : contentLengthInt r.contentLength = Except.ok 17 := by
    rw [hcl17]; rfl
  have hlens : chunkLens 4 17 = [4, 4, 4, 4, 1] := by decide
  simp only [run_complete u p o 4 r none 17 hst hcl]
  refine ⟨?_, iter_content_flatten 4 r.body, trivial, hlen, ?_⟩
  · rw [iter_content_map_length, hlen, hlens]
  · simp [hlen]

/-- Witness for C8 (amended): body `List.range 17`. -/
theorem C8_17_byte_scenario_witness :
    let res := download_surfdrive_folder "u" "pw" "out" 4
      (Except.ok ⟨200, some "17", List.range 17⟩) none none none
    res.writes.map List.length = [4, 4, 4, 4, 1] ∧
    res.writes.flatten = List.range 17 ∧ res.file = some (List.range 17) ∧
    res.progress = 17 ∧
    res.printed.getLast? = some (msg_success "out") :=
  C8_17_byte_scenario "u" "pw" "out" ⟨200, some "17", List.range 17⟩
    rfl rfl (by decide)

/-- C9: on every execution, the destination file handle is opened exactly when
control reaches the `open` inside the 200 branch (`reaches_open`), and the
handle's closed flag always equals its opened flag — the `with` block releases
it on every exit path: streaming completed, the open skipped by a non-200
status, or an exception partway through the loop. -/
theorem C9_handle_scoped (u p o : String) (bs : Nat)
    (net : Except String Response) (preFile : Option (List Nat))
    (mf : Option String) (sf : Option (Nat × String)) :
    let res := download_surfdrive_folder u p o bs net preFile mf sf
    res.closed = res.opened ∧ res.opened = reaches_open net mf := by
  rcases net with e | r
  · simp [run_net_error, reaches_open]
  · by_cases h200 : r.status = 200
    · cases mf with
      | some e =>
        simp [run_mkdir_fault u p o bs r preFile e sf h200, reaches_open]
      | none =>
        cases hcl : contentLengthInt r.contentLength with
        | error e =>
          simp [run_header_fault u p o bs r preFile sf e h200 hcl,
            reaches_open, h200, hcl]
        | ok t =>
          have hro : reaches_open (Except.ok r) none = true := by
            simp [reaches_open, h200, hcl]
          cases sf with
          | none => simp [run_complete u p o bs r preFile t h200 hcl, hro]
          | some ke =>
            rcases ke with ⟨k, e⟩
            by_cases hk : k ≤ (iter_content bs r.body).length
            · simp [run_stream_fault u p o bs r preFile t k e h200 hcl hk, hro]
            · simp [run_stream_fault_over u p o bs r preFile t k e h200 hcl hk,
                hro]
    · by_cases h401 : r.status = 401
      · simp [run_auth_fail u p o bs r preFile mf sf h401, reaches_open, h200]
      · simp [run_other_status u p o bs r preFile mf sf h200 h401,
          reaches_open, h200]

/-- C10: if an exception hits mid-stream — after the 200 branch opened the
file, before the loop finished — exactly the generic unexpected-error message
is printed (neither the success message nor the integrity warning), and the
partially written file, holding exactly the chunks written before the fault,
remains on disk (the handle closed by the `with` block). -/
theorem C10_midstream_fault (u p o : String) (bs : Nat) (r : Response)
    (preFile : Option (List Nat)) (t : Int) (k : Nat) (e : String)
    (hst : r.status = 200) (hcl : contentLengthInt r.contentLength = Except.ok t)
    (hk : k ≤ (iter_content bs r.body).length) :
    let res := download_surfdrive_folder u p o bs (Except.ok r) preFile none
      (some (k, e))
    res.printed = [msg_target u, msg_downloading o, msg_unexpected e] ∧
    msg_success o ∉ res.printed ∧ msg_integrity ∉ res.printed ∧
    res.opened = true ∧ res.closed = true ∧
    res.writes = (iter_content bs r.body).take k ∧
    res.file = some ((iter_content bs r.body).take k).flatten := by
  simp only [run_stream_fault u p o bs r preFile t k e hst hcl hk]
  refine ⟨trivial, ?_, ?_, trivial, trivial, trivial, trivial⟩
  · simp [msg_success_ne_target, msg_success_ne_downloading,
      msg_success_ne_unexpected]
  · simp [msg_integrity_ne_target, msg_integrity_ne_downloading,
      msg_integrity_ne_unexpected]

/-- Witness for C10: fault after 1 of 2 chunks of a 3-byte body. -/
theorem C10_midstream_fault_witness :
    let res := download_surfdrive_folder "u" "pw" "out" 2
      (Except.ok ⟨200, some "3", [1, 2, 3]⟩) none none
      (some (1, "connection broken"))
    res.printed = [msg_target "u", msg_downloading "out",
      msg_unexpected "connection broken"] ∧
    msg_success "out" ∉ res.printed ∧ msg_integrity ∉ res.printed ∧
    res.opened = true ∧ res.closed = true ∧
    res.writes = (iter_content 2 ([1, 2, 3] : List Nat)).take 1 ∧
    res.file = some ((iter_content 2 ([1, 2, 3] : List Nat)).take 1).flatten :=
  C10_midstream_fault "u" "pw" "out" 2 ⟨200, some "3", [1, 2, 3]⟩ none 3 1
    "connection broken" rfl rfl (by decide)

example : iter_content 4 (List.range 10) = [[0,1,2,3],[4,5,6,7],[8,9]] := by decide
example : chunkLens 4 17 = [4,4,4,4,1] := by decide
example : pyInt? "17" = some 17 := by decide
example : pyInt? " -42 " = some (-42) := by decide
example : pyInt? "abc" = none := by decide
example : pyInt? "" = none := by decide
example : run_stream [[1,2],[3]] = (3, [[1,2],[3]]) := by decide

end LangAi
